import Mathlib

/-!
Shallow embedding of `plugin/x/src/insert_statement_builder.cc` (MySQL X
plugin): `xpl::Insert_statement_builder` translates a `Mysqlx::Crud::Insert`
protocol message into SQL `INSERT` statement text, and its inner
`Document_id_aggregator` owns the `_id` synthesis policy for document rows.

Modelling conventions:
* The text-accumulating `Query_string_builder`/`Expression_generator`
  facade, the generic expression renderer (`put_expr`), the quoting and
  identifier-quoting primitives, the `_id`-in-JSON textual check
  (`json_utils`), the collection renderer of the base `Statement_builder`,
  and the low-level unique-id generator are external collaborators (they
  are not part of this translation unit); they are modelled as opaque
  function parameters gathered in the `Generator` structure.
* The mutable statement buffer and the aggregator's id list are threaded
  explicitly as a `BState`.  A C++ `throw ngs::Error_code` is modelled as
  an `Except.error` carrying both the error and the state at the moment of
  the throw (the buffer is mutated in place by the C++ code, so the text
  written before the throw stays in it).
* The base id generator is stateful (each call returns a fresh unique id);
  it is modelled by an opaque function of the call index.
-/

namespace InsertBuilder

/-- Mysqlx.Crud data model selector (`Mysqlx::Crud::DataModel`). -/
inductive DataModel where
  | DOCUMENT
  | TABLE
  deriving DecidableEq, BEq, Repr

/-- Octet content types of `Expression_generator` (`CT_PLAIN = 0`,
`CT_GEOMETRY`, `CT_JSON`, `CT_XML` from `Mysqlx::Resultset`). -/
def CT_PLAIN : Nat := 0

/-- Content type tag for geometry octets. -/
def CT_GEOMETRY : Nat := 1

/-- Content type tag for JSON octets. -/
def CT_JSON : Nat := 2

/-- Content type tag for XML octets. -/
def CT_XML : Nat := 3

/-- A `Mysqlx::Datatypes::Scalar`.  Only the `V_OCTETS` (value plus declared
content type) and `V_STRING` shapes are inspected by the builder; every
other scalar kind (`V_SINT`, `V_UINT`, `V_NULL`, `V_DOUBLE`, `V_FLOAT`,
`V_BOOL`) is collapsed into `V_OTHER`, which the builder never accepts as a
document literal. -/
inductive Scalar where
  | V_OCTETS (value : String) (content_type : Nat)
  | V_STRING (value : String)
  | V_OTHER
  deriving DecidableEq, Repr

/-- A `Mysqlx::Expr::Expr`.  The builder dispatches on `LITERAL`,
`PLACEHOLDER` and `OBJECT`; every other expression kind (`IDENT`,
`VARIABLE`, `FUNC_CALL`, `OPERATOR`, `ARRAY`) falls into the `default:`
branch of `add_document` and is collapsed into `OTHER`.  An object is its
ordered field list (key and value); only the keys are inspected by
`is_id_in_object`, values are rendered opaquely. -/
inductive Expr where
  | LITERAL (literal : Scalar)
  | PLACEHOLDER (position : Nat)
  | OBJECT (fld : List (String × Expr))
  | OTHER

/-- One entry of `Mysqlx::Crud::Projection` as used here (only the column
name is read, through `Mysqlx::Crud::Column::name`). -/
structure Column where
  name : String
  deriving DecidableEq, Repr

/-- A `Mysqlx::Crud::Insert::TypedRow`: its ordered field list. -/
structure TypedRow where
  field : List Expr

/-- The `Mysqlx::Crud::Insert` message fields read by the builder:
collection (opaque, forwarded to the collaborator renderer), data model,
projection, rows, bound argument list and the upsert flag. -/
structure Insert where
  collection : String
  data_model : DataModel
  projection : List Column
  row : List TypedRow
  args : List Scalar
  upsert : Bool

/-- The collaborator functions consumed by the builder (spec section 6):
text rendering primitives of the `Query_string_builder` facade, the
`json_utils` check for a top-level `_id`, and the base unique-id generator
(`Document_id_generator_interface::generate`, modelled as a function of the
call index since each call yields a fresh id).  `put_expr` takes a whole
expression; `put_expr_scalar` and `put_expr_object` are its overloads for a
bare scalar and a bare object. -/
structure Generator where
  put_quote : String → String
  put_identifier : String → String
  put_expr : Expr → String
  put_expr_scalar : Scalar → String
  put_expr_object : List (String × Expr) → String
  put_collection : String → String
  is_id_in_json : String → Bool
  base_generate : Nat → String

/-- The mutable state threaded through a build: the accumulated statement
text, the aggregator's `m_document_ids` list, and the number of calls made
to the base id generator so far. -/
structure BState where
  buffer : String
  document_ids : List String
  gen_calls : Nat
  deriving DecidableEq, Repr

/-- Error names of the codes thrown by this translation unit
(`xpl_error.h` codes; `ER_X_BAD_INSERT_DATA` is shared by the row-arity and
the upsert errors, which differ in their message). -/
inductive ErrName where
  | ER_X_BAD_PROJECTION
  | ER_X_MISSING_ARGUMENT
  | ER_X_BAD_INSERT_DATA
  | ER_INTERNAL_ERROR
  deriving DecidableEq, Repr

/-- An `ngs::Error_code`: error name plus message. -/
structure Error_code where
  error : ErrName
  message : String
  deriving DecidableEq, Repr

/-- The `BadProjection` error thrown by `add_projection`. -/
def badProjectionError : Error_code :=
  ⟨.ER_X_BAD_PROJECTION, "Invalid projection for document operation"⟩

/-- The `MissingRows` error thrown by `add_values` and `add_documents`. -/
def missingRowsError : Error_code :=
  ⟨.ER_X_MISSING_ARGUMENT, "Missing row data for Insert"⟩

/-- The `RowArityMismatch` error thrown by `add_row` and `add_document`. -/
def rowArityError : Error_code :=
  ⟨.ER_X_BAD_INSERT_DATA, "Wrong number of fields in row being inserted"⟩

/-- The `UpsertNotSupported` error thrown by `add_upsert`. -/
def upsertNotSupportedError : Error_code :=
  ⟨.ER_X_BAD_INSERT_DATA, "Unable update on duplicate key for TABLE data model"⟩

/-- The `ConfigFetchFailed` error returned by `Document_id_aggregator::configue`. -/
def configFetchError : Error_code :=
  ⟨.ER_INTERNAL_ERROR, "Error executing statement"⟩

/-- Result of a builder step: either the updated state, or a thrown
`Error_code` together with the state at the moment of the throw. -/
def BRes : Type := Except (Error_code × BState) BState

/-- Append raw text to the statement buffer (`Query_string_builder::put`). -/
def put (s : String) (st : BState) : BState :=
  { st with buffer := st.buffer ++ s }

/-- Throw an `ngs::Error_code`; the buffer keeps what was written. -/
def throwE (e : Error_code) (st : BState) : BRes :=
  .error (e, st)

/-- Sequence two builder steps: a thrown error propagates unchanged. -/
def bindB (x : BRes) (f : BState → BRes) : BRes :=
  match x with
  | .error e => .error e
  | .ok st => f st

/-- Elements after the first in `Generator::put_list`: each is preceded by
a `","` separator. -/
def put_list_rest (f : α → BState → BRes) : List α → BState → BRes
  | [], st => .ok st
  | x :: xs, st => bindB (f x (put "," st)) (put_list_rest f xs)

/-- `Generator::put_list`: renders the elements of a list separated by
`","`; an empty list renders nothing. -/
def put_list (f : α → BState → BRes) : List α → BState → BRes
  | [], st => .ok st
  | x :: xs, st => bindB (f x st) (put_list_rest f xs)

/-- `is_table_data_model(msg)` of `statement_builder.h`:
`msg.data_model() == Mysqlx::Crud::TABLE`. -/
def is_table_data_model (msg : Insert) : Bool :=
  msg.data_model == DataModel.TABLE

/-- Collaborator `Statement_builder::add_collection` (base class, outside
this translation unit; spec sections 1 and 6 treat collection rendering as
an opaque forwarded call): appends the rendered collection reference. -/
def add_collection (c : Generator) (collection : String) (st : BState) : BState :=
  put (c.put_collection collection) st

/-- `Document_id_aggregator::generate_id`: calls the base generator,
appends the fresh id to `m_document_ids` (`add_id`) and returns it
(`m_document_ids->back()`). -/
def generate_id (c : Generator) (st : BState) : String × BState :=
  let id := c.base_generate st.gen_calls
  (id, { st with document_ids := st.document_ids ++ [id], gen_calls := st.gen_calls + 1 })

/-- `Insert_statement_builder::add_document_literal`: accepts octets of
content type plain or JSON and strings; returns `none` (C++ `false`, state
untouched) for every other scalar.  A value already containing a top-level
`_id` is rendered unchanged in parentheses; otherwise it is wrapped in
`JSON_SET(value, '$._id', quoted fresh id)`. -/
def add_document_literal (c : Generator) (arg : Scalar) (st : BState) : Option BState :=
  match arg with
  | .V_OCTETS value content_type =>
      if content_type ≠ CT_PLAIN ∧ content_type ≠ CT_JSON then
        none
      else if c.is_id_in_json value then
        some (put ")" (put (c.put_quote value) (put "(" st)))
      else
        let st1 := put (c.put_quote value) (put "(JSON_SET(" st)
        let p := generate_id c st1
        some (put "))" (put (c.put_quote p.1) (put ", '$._id', " p.2)))
  | .V_STRING value =>
      if c.is_id_in_json value then
        some (put ")" (put (c.put_expr_scalar arg) (put "(" st)))
      else
        let st1 := put (c.put_quote value) (put "(JSON_SET(" st)
        let p := generate_id c st1
        some (put "))" (put (c.put_quote p.1) (put ", '$._id', " p.2)))
  | .V_OTHER => none

/-- `Insert_statement_builder::add_document_placeholder`: resolves the
position in the message's argument list; out of range returns `none`
(C++ `false`). -/
def add_document_placeholder (c : Generator) (args : List Scalar) (position : Nat)
    (st : BState) : Option BState :=
  match args[position]? with
  | some a => add_document_literal c a st
  | none => none

/-- Anonymous-namespace `is_id_in_object`: scans the object's field keys
for `"_id"`. -/
def is_id_in_object (fld : List (String × Expr)) : Bool :=
  fld.any (fun f => f.1 == "_id")

/-- `Insert_statement_builder::add_document_object`: an object with a
top-level `_id` key is rendered unchanged in parentheses; otherwise it is
wrapped in `JSON_SET(object, '$._id', quoted fresh id)`. -/
def add_document_object (c : Generator) (arg : List (String × Expr)) (st : BState) : BState :=
  if is_id_in_object arg then
    put ")" (put (c.put_expr_object arg) (put "(" st))
  else
    let st1 := put (c.put_expr_object arg) (put "(JSON_SET(" st)
    let p := generate_id c st1
    put "))" (put (c.put_quote p.1) (put ", '$._id', " p.2))

/-- `Insert_statement_builder::add_document`: a document row must have
exactly one field; the field is dispatched on its expression kind, and any
unhandled kind falls through to generic parenthesized rendering. -/
def add_document (c : Generator) (args : List Scalar) (row : List Expr) (st : BState) : BRes :=
  match row with
  | [doc] =>
      let handled : Option BState :=
        match doc with
        | .LITERAL lit => add_document_literal c lit st
        | .PLACEHOLDER position => add_document_placeholder c args position st
        | .OBJECT obj => some (add_document_object c obj st)
        | .OTHER => none
      match handled with
      | some st2 => .ok st2
      | none => .ok (put ")" (put (c.put_expr doc) (put "(" st)))
  | _ => throwE rowArityError st

/-- `Insert_statement_builder::add_documents`: rejects an empty row list,
then emits `" VALUES "` and each row through `add_document`. -/
def add_documents (c : Generator) (args : List Scalar) (values : List TypedRow)
    (st : BState) : BRes :=
  if values.length = 0 then throwE missingRowsError st
  else put_list (fun r => add_document c args r.field) values (put " VALUES " st)

/-- `Insert_statement_builder::add_row`: an empty row, or (when a projection
was supplied, `projection_size ≠ 0`) a row whose field count differs from
the projection size, throws; otherwise the fields are rendered
comma-separated in parentheses. -/
def add_row (c : Generator) (row : List Expr) (projection_size : Nat) (st : BState) : BRes :=
  if row.length = 0 ∨ (projection_size ≠ 0 ∧ row.length ≠ projection_size) then
    throwE rowArityError st
  else
    bindB (put_list (fun e st2 => .ok (put (c.put_expr e) st2)) row (put "(" st))
      (fun st3 => .ok (put ")" st3))

/-- `Insert_statement_builder::add_values`: rejects an empty row list, then
emits `" VALUES "` and each row through `add_row`. -/
def add_values (c : Generator) (values : List TypedRow) (projection_size : Nat)
    (st : BState) : BRes :=
  if values.length = 0 then throwE missingRowsError st
  else put_list (fun r => add_row c r.field projection_size) values (put " VALUES " st)

/-- `Insert_statement_builder::add_projection`: relational mode renders a
non-empty projection as a parenthesized comma-separated list of quoted
identifiers and an empty one as nothing; document mode rejects a non-empty
projection and renders `" (doc)"` for an empty one. -/
def add_projection (c : Generator) (projection : List Column) (is_relational : Bool)
    (st : BState) : BRes :=
  if is_relational then
    if projection.length ≠ 0 then
      bindB (put_list (fun col st2 => .ok (put (c.put_identifier col.name) st2))
          projection (put " (" st))
        (fun st3 => .ok (put ")" st3))
    else .ok st
  else
    if projection.length ≠ 0 then throwE badProjectionError st
    else .ok (put " (doc)" st)

/-- Modelled from the spec: the numeric value of `ER_X_BAD_UPSERT_DATA`
stringified by `STRINGIFY_ARG` into the upsert clause comes from
`xpl_error.h`, which is not part of this translation unit; the spec only
says a named engine error is raised, so the digits are a fixed opaque
constant (no claim depends on them). -/
def ER_X_BAD_UPSERT_DATA_text : String := "5121"

/-- The fixed conflict-handling clause emitted by `add_upsert` (the five
C++ string literals concatenated). -/
def upsert_clause : String :=
  " ON DUPLICATE KEY UPDATE doc = IF(JSON_UNQUOTE(JSON_EXTRACT(doc, '$._id'))" ++
  " = JSON_UNQUOTE(JSON_EXTRACT(VALUES(doc), '$._id'))," ++
  " VALUES(doc), MYSQLX_ERROR(" ++ ER_X_BAD_UPSERT_DATA_text ++ "))"

/-- `Insert_statement_builder::add_upsert`: relational mode throws;
document mode appends the fixed conflict clause. -/
def add_upsert (is_relational : Bool) (st : BState) : BRes :=
  if is_relational then throwE upsertNotSupportedError st
  else .ok (put upsert_clause st)

/-- `Insert_statement_builder::build`: prefix, collection, projection,
values (by data model), optional upsert clause. -/
def build (c : Generator) (msg : Insert) (st : BState) : BRes :=
  let st1 := put "INSERT INTO " st
  let rel := is_table_data_model msg
  let st2 := add_collection c msg.collection st1
  bindB (add_projection c msg.projection rel st2) fun st3 =>
  bindB (if rel then add_values c msg.row msg.projection.length st3
         else add_documents c msg.args msg.row st3) fun st4 =>
  if msg.upsert then add_upsert rel st4 else .ok st4

/-- The aggregator's cached id-generation variables
(`Document_id_generator_interface::Variables`): unique prefix,
auto-increment offset, auto-increment increment. -/
structure Variables where
  pfx : Nat
  offset : Nat
  increment : Nat
  deriving DecidableEq, Repr

/-- The configuration query issued by `Document_id_aggregator::configue`. -/
def config_query : String :=
  "SELECT @@mysqlx_document_id_unique_prefix," ++
  "@@auto_increment_offset,@@auto_increment_increment"

/-- `Document_id_aggregator::configue`: the result set of executing
`config_query` (modelled as the list of its rows, each row the three
already-converted unsigned values; `Sql_data_result` and its conversions
are a collaborator) must have exactly one row, otherwise an internal error
is returned. -/
def configue (query_result : List (Nat × Nat × Nat)) : Except Error_code Variables :=
  if query_result.length ≠ 1 then
    .error configFetchError
  else
    match query_result with
    | (p, o, i) :: _ => .ok ⟨p, o, i⟩
    | [] => .error configFetchError

/-- Modelled from the spec: the caller that drives `configue` (the
aggregator's header and the command handler are not under `src/`)
configures the aggregator at most once per instance by executing
`config_query` before any synthesis, and a failed configuration aborts the
build with that error before any statement text or id is produced. -/
def build_with_configuration (c : Generator) (gen : Variables → Nat → String)
    (query_result : List (Nat × Nat × Nat)) (msg : Insert) (st : BState) : BRes :=
  match configue query_result with
  | .error e => .error (e, st)
  | .ok vars => build { c with base_generate := gen vars } msg st

/-- Comma-joined text, mirroring the effect of `put_list` with a pure
per-element renderer (separator `","`, nothing for an empty list);
`joinCommaRest` is the tail part, each element preceded by the separator. -/
def joinCommaRest : List String → String
  | [] => ""
  | s :: rest => "," ++ s ++ joinCommaRest rest

/-- Comma-joined text of a whole list. -/
def joinComma : List String → String
  | [] => ""
  | s :: rest => s ++ joinCommaRest rest

/-- Spec-side description (spec sections 4.2 and 4.3) of classifying one
accepted document literal scalar: the rendered row text paired with whether
a fresh id was synthesized (`n` is the index of the synthesis call);
`none` means the scalar is not accepted and the caller falls through. -/
def spec_scalar_value (c : Generator) (s : Scalar) (n : Nat) : Option (String × Bool) :=
  match s with
  | .V_OCTETS v ct =>
      if ct = CT_PLAIN ∨ ct = CT_JSON then
        some (if c.is_id_in_json v then
                ("(" ++ c.put_quote v ++ ")", false)
              else
                ("(JSON_SET(" ++ c.put_quote v ++ ", '$._id', " ++
                   c.put_quote (c.base_generate n) ++ "))", true))
      else none
  | .V_STRING v =>
      some (if c.is_id_in_json v then
              ("(" ++ c.put_expr_scalar s ++ ")", false)
            else
              ("(JSON_SET(" ++ c.put_quote v ++ ", '$._id', " ++
                 c.put_quote (c.base_generate n) ++ "))", true))
  | .V_OTHER => none

/-- Spec-side description of rendering one document row value: accepted
literals and resolved placeholders go through `spec_scalar_value`, objects
through the `_id`-key policy, and everything else (kind OTHER, unresolved
placeholder, unaccepted literal) falls through to generic parenthesized
rendering with no synthesis. -/
def spec_doc_row (c : Generator) (args : List Scalar) (doc : Expr) (n : Nat) :
    String × Bool :=
  match doc with
  | .LITERAL s => (spec_scalar_value c s n).getD ("(" ++ c.put_expr doc ++ ")", false)
  | .PLACEHOLDER p =>
      (match args[p]? with
       | some a => spec_scalar_value c a n
       | none => none).getD ("(" ++ c.put_expr doc ++ ")", false)
  | .OBJECT obj =>
      if is_id_in_object obj then
        ("(" ++ c.put_expr_object obj ++ ")", false)
      else
        ("(JSON_SET(" ++ c.put_expr_object obj ++ ", '$._id', " ++
           c.put_quote (c.base_generate n) ++ "))", true)
  | .OTHER => ("(" ++ c.put_expr doc ++ ")", false)

/-- The document-row values claim C3 quantifies over: an accepted literal
(plain or JSON octets, or a string) or an object, in each case lacking a
top-level `_id`; the payload is the collaborator rendering of the value
that ends up inside `JSON_SET`. -/
def doc_value_no_id (c : Generator) (doc : Expr) : Option String :=
  match doc with
  | .LITERAL (.V_OCTETS v ct) =>
      if (ct = CT_PLAIN ∨ ct = CT_JSON) ∧ c.is_id_in_json v = false then
        some (c.put_quote v)
      else none
  | .LITERAL (.V_STRING v) =>
      if c.is_id_in_json v = false then some (c.put_quote v) else none
  | .OBJECT obj =>
      if is_id_in_object obj = false then some (c.put_expr_object obj) else none
  | _ => none

/-- The document-row values claim C4 quantifies over: an accepted literal
or an object, in each case already containing a top-level `_id`; the
payload is the collaborator rendering of the unmodified value. -/
def doc_value_with_id (c : Generator) (doc : Expr) : Option String :=
  match doc with
  | .LITERAL (.V_OCTETS v ct) =>
      if (ct = CT_PLAIN ∨ ct = CT_JSON) ∧ c.is_id_in_json v = true then
        some (c.put_quote v)
      else none
  | .LITERAL (.V_STRING v) =>
      if c.is_id_in_json v = true then some (c.put_expr_scalar (.V_STRING v)) else none
  | .OBJECT obj =>
      if is_id_in_object obj = true then some (c.put_expr_object obj) else none
  | _ => none

/-- Claim-side notion of a supplied row value containing a top-level `_id`
member: detected by the collaborator JSON check for literal content and by
the key scan for object form; no other expression kind carries one. -/
def expr_has_id (c : Generator) (doc : Expr) : Bool :=
  match doc with
  | .LITERAL (.V_OCTETS v _) => c.is_id_in_json v
  | .LITERAL (.V_STRING v) => c.is_id_in_json v
  | .OBJECT obj => is_id_in_object obj
  | _ => false

/-- A concrete collaborator instance for counterexamples and witnesses:
quoting marks its argument with `Q(...)`, identifier quoting with `I(...)`,
the expression renderers return fixed tags, the JSON `_id` check is always
false, and the base generator returns `id<n>`. -/
def cx : Generator where
  put_quote := fun s => "Q(" ++ s ++ ")"
  put_identifier := fun s => "I(" ++ s ++ ")"
  put_expr := fun _ => "EXPR"
  put_expr_scalar := fun _ => "SEXPR"
  put_expr_object := fun _ => "OEXPR"
  put_collection := fun s => s
  is_id_in_json := fun _ => false
  base_generate := fun n => "id" ++ Nat.repr n

/-- The empty entry state. -/
def st0 : BState := ⟨"", [], 0⟩

/-- The state a build step left behind, whether it returned or threw. -/
def res_state : BRes → BState
  | .ok st => st
  | .error (_, st) => st

/-- The buffer of `st2` extends the buffer of `st1` (text is only ever
appended, never removed). -/
def buffer_grows (st1 st2 : BState) : Prop :=
  ∃ s, st2.buffer = st1.buffer ++ s

/-- Text of a relational projection as `add_projection` renders it. -/
def proj_text (c : Generator) (projection : List Column) : String :=
  if projection.length = 0 then ""
  else " (" ++ joinComma (projection.map fun col => c.put_identifier col.name) ++ ")"

/-- Text of one relational row as `add_row` renders it. -/
def row_text (c : Generator) (row : List Expr) : String :=
  "(" ++ joinComma (row.map c.put_expr) ++ ")"

/-- Text of a relational values list as `add_values` renders it. -/
def values_text (c : Generator) (rows : List TypedRow) : String :=
  " VALUES " ++ joinComma (rows.map fun r => row_text c r.field)

/-- Concrete document request whose single row field is of kind OTHER. -/
def msg_other_row : Insert := ⟨"tbl", .DOCUMENT, [], [⟨[.OTHER]⟩], [], false⟩

/-- Concrete document request carrying a non-empty projection. -/
def msg_doc_proj : Insert := ⟨"tbl", .DOCUMENT, [⟨"p"⟩], [⟨[.OTHER]⟩], [], false⟩

/-- Concrete document request with a non-empty projection and no rows. -/
def msg_doc_proj_norows : Insert := ⟨"tbl", .DOCUMENT, [⟨"p"⟩], [], [], false⟩

/-- Concrete relational upsert request with no rows. -/
def msg_rel_upsert_norows : Insert := ⟨"tbl", .TABLE, [⟨"a"⟩], [], [], true⟩

/-- Concrete relational upsert request with matching projection and row. -/
def msg_rel_upsert_match : Insert := ⟨"tbl", .TABLE, [⟨"a"⟩], [⟨[.OTHER]⟩], [], true⟩

/-- Concrete relational upsert request, empty projection, rows of differing
non-zero arity. -/
def msg_rel_upsert_ragged : Insert :=
  ⟨"tbl", .TABLE, [], [⟨[.OTHER]⟩, ⟨[.OTHER, .OTHER]⟩], [], true⟩

/-- Concrete relational request, empty projection, rows of differing
non-zero arity, no upsert. -/
def msg_rel_ragged : Insert :=
  ⟨"tbl", .TABLE, [], [⟨[.OTHER]⟩, ⟨[.OTHER, .OTHER]⟩], [], false⟩

/-- Concrete relational request with matching projection and rows. -/
def msg_rel_match : Insert :=
  ⟨"tbl", .TABLE, [⟨"a"⟩, ⟨"b"⟩], [⟨[.OTHER, .OTHER]⟩], [], false⟩

/-- Concrete document request whose single row is a string literal. -/
def msg_doc_string : Insert :=
  ⟨"tbl", .DOCUMENT, [], [⟨[.LITERAL (.V_STRING "V")]⟩], [], false⟩

theorem put_put (a b : String) (st : BState) : put b (put a st) = put (a ++ b) st := by
  simp [put, String.append_assoc]

theorem put_empty (st : BState) : put "" st = st := by
  simp [put]

theorem bindB_ok (st : BState) (f : BState → BRes) : bindB (.ok st) f = f st := rfl

theorem bindB_error (e : Error_code × BState) (f : BState → BRes) :
    bindB (.error e) f = .error e := rfl

theorem put_list_rest_pure (g : α → String) (f : α → BState → BRes) (l : List α)
    (hf : ∀ x ∈ l, ∀ st, f x st = .ok (put (g x) st)) (st : BState) :
    put_list_rest f l st = .ok (put (joinCommaRest (l.map g)) st) := by
  induction l generalizing st with
  | nil => simp [put_list_rest, joinCommaRest, put_empty]
  | cons x xs ih =>
      rw [put_list_rest, hf x (List.mem_cons_self x xs), bindB_ok,
        ih (fun y hy st2 => hf y (List.mem_cons_of_mem x hy) st2)]
      simp [put_put, joinCommaRest, String.append_assoc]

theorem put_list_pure (g : α → String) (f : α → BState → BRes) (l : List α)
    (hf : ∀ x ∈ l, ∀ st, f x st = .ok (put (g x) st)) (st : BState) :
    put_list f l st = .ok (put (joinComma (l.map g)) st) := by
  cases l with
  | nil => simp [put_list, joinComma, put_empty]
  | cons x xs =>
      rw [put_list, hf x (List.mem_cons_self x xs), bindB_ok,
        put_list_rest_pure g f xs (fun y hy st2 => hf y (List.mem_cons_of_mem x hy) st2)]
      simp [put_put, joinComma, String.append_assoc]

theorem add_document_literal_spec (c : Generator) (s : Scalar) (st : BState) :
    add_document_literal c s st =
      (spec_scalar_value c s st.gen_calls).map
        (fun r =>
          { buffer := st.buffer ++ r.1,
            document_ids := st.document_ids ++
              (if r.2 then [c.base_generate st.gen_calls] else []),
            gen_calls := st.gen_calls + (if r.2 then 1 else 0) }) := by
  cases s with
  | V_OCTETS v ct =>
      by_cases hct : ct = CT_PLAIN ∨ ct = CT_JSON
      · have hcond : ¬ (ct ≠ CT_PLAIN ∧ ct ≠ CT_JSON) := by tauto
        by_cases hid : c.is_id_in_json v
        · simp [add_document_literal, spec_scalar_value, hct, hcond, hid, put,
            String.append_assoc]
        · simp [add_document_literal, spec_scalar_value, hct, hcond, hid, generate_id,
            put, String.append_assoc]
      · have hcond : ct ≠ CT_PLAIN ∧ ct ≠ CT_JSON := by tauto
        simp [add_document_literal, spec_scalar_value, hct, hcond]
  | V_STRING v =>
      by_cases hid : c.is_id_in_json v
      · simp [add_document_literal, spec_scalar_value, hid, put, String.append_assoc]
      · simp [add_document_literal, spec_scalar_value, hid, generate_id, put,
          String.append_assoc]
  | V_OTHER => simp [add_document_literal, spec_scalar_value]

theorem add_document_spec (c : Generator) (args : List Scalar) (doc : Expr) (st : BState) :
    add_document c args [doc] st =
      .ok { buffer := st.buffer ++ (spec_doc_row c args doc st.gen_calls).1,
            document_ids := st.document_ids ++
              (if (spec_doc_row c args doc st.gen_calls).2 then
                [c.base_generate st.gen_calls] else []),
            gen_calls := st.gen_calls +
              (if (spec_doc_row c args doc st.gen_calls).2 then 1 else 0) } := by
  cases doc with
  | LITERAL s =>
      rw [add_document]
      rw [add_document_literal_spec]
      cases h : spec_scalar_value c s st.gen_calls with
      | none => simp [spec_doc_row, h, put, String.append_assoc]
      | some r => simp [spec_doc_row, h]
  | PLACEHOLDER p =>
      cases hargs : args[p]? with
      | none =>
          simp [add_document, add_document_placeholder, spec_doc_row, hargs, put,
            String.append_assoc]
      | some a =>
          cases h : spec_scalar_value c a st.gen_calls with
          | none =>
              simp [add_document, add_document_placeholder, add_document_literal_spec,
                spec_doc_row, hargs, h, put, String.append_assoc]
          | some r =>
              simp [add_document, add_document_placeholder, add_document_literal_spec,
                spec_doc_row, hargs, h]
  | OBJECT obj =>
      by_cases hobj : is_id_in_object obj
      · simp [add_document, add_document_object, spec_doc_row, hobj, put,
          String.append_assoc]
      · simp [add_document, add_document_object, spec_doc_row, hobj, generate_id, put,
          String.append_assoc]
  | OTHER => simp [add_document, spec_doc_row, put, String.append_assoc]

/-- C1 (counterexample): a document-model request accepted by `build` whose
single row field expression is of kind OTHER is rendered through the
generic fallthrough: the build succeeds, the supplied value carries no
top-level `_id`, no id is synthesized (`document_ids` stays empty), and the
emitted statement text contains no `_id` member at all — so the rendered
row contains no top-level `_id`, refuting the claim. -/
theorem C1_counterexample :
    build cx msg_other_row st0 = .ok ⟨"INSERT INTO tbl (doc) VALUES (EXPR)", [], 0⟩ ∧
    expr_has_id cx .OTHER = false ∧
    ¬ List.IsInfix "_id".toList "INSERT INTO tbl (doc) VALUES (EXPR)".toList :=
  ⟨rfl, rfl, by decide⟩

/-- C1 (amended): every document row rendered through an accepted literal
(plain or JSON octets, or string, inline or via a resolved placeholder) or
through object form carries a top-level `_id`, pre-existing or freshly
synthesized; a row whose field expression is of kind OTHER, an unresolved
placeholder, or an unaccepted literal falls through to generic rendering
with no `_id` synthesis (`spec_doc_row` returns the fallthrough text with
the synthesis flag false, and the generator is not called). -/
theorem C1_document_row_id_policy (c : Generator) (args : List Scalar) (doc : Expr)
    (st : BState) :
    add_document c args [doc] st =
      .ok { buffer := st.buffer ++ (spec_doc_row c args doc st.gen_calls).1,
            document_ids := st.document_ids ++
              (if (spec_doc_row c args doc st.gen_calls).2 then
                [c.base_generate st.gen_calls] else []),
            gen_calls := st.gen_calls +
              (if (spec_doc_row c args doc st.gen_calls).2 then 1 else 0) } :=
  add_document_spec c args doc st

/-- C3: a document row whose value is an accepted literal (plain or JSON
octets, or a string) or an object, lacking a top-level `_id`, is rendered
with exactly one call to the id generator, exactly one entry appended to
`document_ids`, and the text
`(JSON_SET(<rendered value>, '$._id', <quoted generated id>))`. -/
theorem C3_synthesis_exactly_once (c : Generator) (args : List Scalar) (doc : Expr)
    (st : BState) (V : String) (h : doc_value_no_id c doc = some V) :
    add_document c args [doc] st =
      .ok { buffer := st.buffer ++ "(JSON_SET(" ++ V ++ ", '$._id', " ++
              c.put_quote (c.base_generate st.gen_calls) ++ "))",
            document_ids := st.document_ids ++ [c.base_generate st.gen_calls],
            gen_calls := st.gen_calls + 1 } := by
  have hs : spec_doc_row c args doc st.gen_calls =
      ("(JSON_SET(" ++ V ++ ", '$._id', " ++
         c.put_quote (c.base_generate st.gen_calls) ++ "))", true) := by
    cases doc with
    | LITERAL s =>
        cases s with
        | V_OCTETS v ct =>
            rw [doc_value_no_id] at h
            split at h
            · rename_i hcond
              cases h
              simp [spec_doc_row, spec_scalar_value, hcond.1, hcond.2]
            · exact absurd h (by simp)
        | V_STRING v =>
            rw [doc_value_no_id] at h
            split at h
            · rename_i hcond
              cases h
              simp [spec_doc_row, spec_scalar_value, hcond]
            · exact absurd h (by simp)
        | V_OTHER => exact absurd h (by simp [doc_value_no_id])
    | PLACEHOLDER p => exact absurd h (by simp [doc_value_no_id])
    | OBJECT obj =>
        rw [doc_value_no_id] at h
        split at h
        · rename_i hcond
          cases h
          simp [spec_doc_row, hcond]
        · exact absurd h (by simp)
    | OTHER => exact absurd h (by simp [doc_value_no_id])
  rw [add_document_spec, hs]
  simp [String.append_assoc]

/-- C4: a document row whose value (accepted literal or object form)
already contains a top-level `_id` is rendered as its unmodified
collaborator rendering wrapped in parentheses, with zero calls to the id
generator and `document_ids` unchanged. -/
theorem C4_no_synthesis_when_id_present (c : Generator) (args : List Scalar) (doc : Expr)
    (st : BState) (V : String) (h : doc_value_with_id c doc = some V) :
    add_document c args [doc] st =
      .ok { buffer := st.buffer ++ "(" ++ V ++ ")",
            document_ids := st.document_ids,
            gen_calls := st.gen_calls } := by
  have hs : spec_doc_row c args doc st.gen_calls = ("(" ++ V ++ ")", false) := by
    cases doc with
    | LITERAL s =>
        cases s with
        | V_OCTETS v ct =>
            rw [doc_value_with_id] at h
            split at h
            · rename_i hcond
              cases h
              simp [spec_doc_row, spec_scalar_value, hcond.1, hcond.2]
            · exact absurd h (by simp)
        | V_STRING v =>
            rw [doc_value_with_id] at h
            split at h
            · rename_i hcond
              cases h
              simp [spec_doc_row, spec_scalar_value, hcond]
            · exact absurd h (by simp)
        | V_OTHER => exact absurd h (by simp [doc_value_with_id])
    | PLACEHOLDER p => exact absurd h (by simp [doc_value_with_id])
    | OBJECT obj =>
        rw [doc_value_with_id] at h
        split at h
        · rename_i hcond
          cases h
          simp [spec_doc_row, hcond]
        · exact absurd h (by simp)
    | OTHER => exact absurd h (by simp [doc_value_with_id])
  rw [add_document_spec, hs]
  simp [String.append_assoc]

/-- C3 witness: the concrete string-literal document value `"V"` with no
`_id` synthesizes exactly one id. -/
theorem C3_witness :
    add_document cx [] [.LITERAL (.V_STRING "V")] st0 =
      .ok ⟨"(JSON_SET(Q(V), '$._id', Q(id0)))", ["id0"], 1⟩ :=
  C3_synthesis_exactly_once cx [] (.LITERAL (.V_STRING "V")) st0 "Q(V)" rfl

/-- C4 witness: the concrete object value with an `_id` key is rendered
unchanged with no synthesis. -/
theorem C4_witness :
    add_document cx [] [.OBJECT [("_id", .OTHER)]] st0 = .ok ⟨"(OEXPR)", [], 0⟩ :=
  C4_no_synthesis_when_id_present cx [] (.OBJECT [("_id", .OTHER)]) st0 "OEXPR" rfl

theorem bindB_assoc (x : BRes) (f g : BState → BRes) :
    bindB (bindB x f) g = bindB x (fun st => bindB (f st) g) := by
  cases x <;> rfl

theorem bindB_pure (x : BRes) : bindB x (fun st => .ok st) = x := by
  cases x <;> rfl

theorem build_eq (c : Generator) (msg : Insert) (st : BState) :
    build c msg st =
      bindB (add_projection c msg.projection (is_table_data_model msg)
               (add_collection c msg.collection (put "INSERT INTO " st))) fun st3 =>
      bindB (if is_table_data_model msg then add_values c msg.row msg.projection.length st3
             else add_documents c msg.args msg.row st3) fun st4 =>
      if msg.upsert then add_upsert (is_table_data_model msg) st4 else .ok st4 := rfl

theorem buffer_grows_refl (st : BState) : buffer_grows st st :=
  ⟨"", (String.append_empty _).symm⟩

theorem buffer_grows_put (s : String) (st : BState) : buffer_grows st (put s st) :=
  ⟨s, rfl⟩

theorem buffer_grows_trans {a b c : BState} (h1 : buffer_grows a b)
    (h2 : buffer_grows b c) : buffer_grows a c := by
  obtain ⟨s1, hs1⟩ := h1
  obtain ⟨s2, hs2⟩ := h2
  exact ⟨s1 ++ s2, by rw [hs2, hs1, String.append_assoc]⟩

theorem grows_res_bindB {st : BState} {x : BRes} {f : BState → BRes}
    (hx : buffer_grows st (res_state x))
    (hf : ∀ st1, buffer_grows st1 (res_state (f st1))) :
    buffer_grows st (res_state (bindB x f)) := by
  cases x with
  | error e => exact hx
  | ok st1 => exact buffer_grows_trans hx (hf st1)

theorem grows_put_list_rest (f : α → BState → BRes)
    (hf : ∀ x st, buffer_grows st (res_state (f x st))) (l : List α) (st : BState) :
    buffer_grows st (res_state (put_list_rest f l st)) := by
  induction l generalizing st with
  | nil => exact buffer_grows_refl st
  | cons x xs ih =>
      rw [put_list_rest]
      exact grows_res_bindB (buffer_grows_trans (buffer_grows_put "," st) (hf x _))
        (fun st1 => ih st1)

theorem grows_put_list (f : α → BState → BRes)
    (hf : ∀ x st, buffer_grows st (res_state (f x st))) (l : List α) (st : BState) :
    buffer_grows st (res_state (put_list f l st)) := by
  cases l with
  | nil => exact buffer_grows_refl st
  | cons x xs =>
      rw [put_list]
      exact grows_res_bindB (hf x st) (fun st1 => grows_put_list_rest f hf xs st1)

theorem add_row_err (c : Generator) (row : List Expr) (psize : Nat) (st : BState)
    (h : row.length = 0 ∨ (psize ≠ 0 ∧ row.length ≠ psize)) :
    add_row c row psize st = .error (rowArityError, st) := by
  rw [add_row, if_pos h]; rfl

theorem add_row_ok (c : Generator) (row : List Expr) (psize : Nat) (st : BState)
    (h : ¬(row.length = 0 ∨ (psize ≠ 0 ∧ row.length ≠ psize))) :
    add_row c row psize st = .ok (put (row_text c row) st) := by
  rw [add_row, if_neg h,
    put_list_pure (fun e => c.put_expr e) _ row (fun x _ st2 => rfl), bindB_ok]
  simp [row_text, put_put, String.append_assoc]

theorem grows_add_row (c : Generator) (row : List Expr) (psize : Nat) (st : BState) :
    buffer_grows st (res_state (add_row c row psize st)) := by
  by_cases h : row.length = 0 ∨ (psize ≠ 0 ∧ row.length ≠ psize)
  · rw [add_row_err c row psize st h]; exact buffer_grows_refl st
  · rw [add_row_ok c row psize st h]; exact buffer_grows_put _ st

theorem add_document_arity_err (c : Generator) (args : List Scalar) (row : List Expr)
    (st : BState) (h : row.length ≠ 1) :
    add_document c args row st = .error (rowArityError, st) := by
  match row with
  | [] => rfl
  | [doc] => exact absurd rfl h
  | x :: y :: rest => rfl

theorem grows_add_document (c : Generator) (args : List Scalar) (row : List Expr)
    (st : BState) : buffer_grows st (res_state (add_document c args row st)) := by
  match row with
  | [doc] => rw [add_document_spec]; exact ⟨_, rfl⟩
  | [] => exact buffer_grows_refl st
  | x :: y :: rest => exact buffer_grows_refl st

theorem grows_add_values (c : Generator) (values : List TypedRow) (psize : Nat)
    (st : BState) : buffer_grows st (res_state (add_values c values psize st)) := by
  rw [add_values]
  split
  · exact buffer_grows_refl st
  · exact buffer_grows_trans (buffer_grows_put " VALUES " st)
      (grows_put_list _ (fun r st2 => grows_add_row c r.field psize st2) values _)

theorem grows_add_documents (c : Generator) (args : List Scalar) (values : List TypedRow)
    (st : BState) : buffer_grows st (res_state (add_documents c args values st)) := by
  rw [add_documents]
  split
  · exact buffer_grows_refl st
  · exact buffer_grows_trans (buffer_grows_put " VALUES " st)
      (grows_put_list _ (fun r st2 => grows_add_document c args r.field st2) values _)

theorem grows_add_projection (c : Generator) (projection : List Column) (rel : Bool)
    (st : BState) : buffer_grows st (res_state (add_projection c projection rel st)) := by
  rw [add_projection]
  split
  · split
    · exact grows_res_bindB
        (buffer_grows_trans (buffer_grows_put " (" st)
          (grows_put_list (fun col st2 => .ok (put (c.put_identifier col.name) st2))
            (fun col st2 => by exact buffer_grows_put (c.put_identifier col.name) st2)
            projection _))
        (fun st3 => buffer_grows_put ")" st3)
    · exact buffer_grows_refl st
  · split
    · exact buffer_grows_refl st
    · exact buffer_grows_put " (doc)" st

theorem grows_add_upsert (rel : Bool) (st : BState) :
    buffer_grows st (res_state (add_upsert rel st)) := by
  rw [add_upsert]
  split
  · exact buffer_grows_refl st
  · exact buffer_grows_put upsert_clause st

theorem grows_build (c : Generator) (msg : Insert) (st : BState) :
    buffer_grows (add_collection c msg.collection (put "INSERT INTO " st))
      (res_state (build c msg st)) := by
  rw [build_eq]
  refine grows_res_bindB (grows_add_projection c msg.projection _ _) (fun st3 => ?_)
  refine grows_res_bindB ?_ (fun st4 => ?_)
  · split
    · exact grows_add_values c msg.row msg.projection.length st3
    · exact grows_add_documents c msg.args msg.row st3
  · split
    · exact grows_add_upsert _ st4
    · exact buffer_grows_refl st4

/-- C2 (counterexample): on a document request with a non-empty projection,
`build` throws `BadProjection` after having already written
`INSERT INTO tbl` into the buffer, so at failure the buffer differs from
its entry state (which was empty): the failure is not atomic. -/
theorem C2_counterexample :
    build cx msg_doc_proj st0 =
      .error (badProjectionError, ⟨"INSERT INTO tbl", [], 0⟩) ∧
    ("INSERT INTO tbl" : String) ≠ st0.buffer :=
  ⟨rfl, by decide⟩

/-- C2 (amended): when `build` fails with any error, nothing is emitted
after the point of failure, but the buffer keeps the text already written
before the error was detected — it extends the entry buffer by at least
`INSERT INTO <rendered collection>` rather than being restored to its
entry state. -/
theorem C2_failure_keeps_written_text (c : Generator) (msg : Insert) (st : BState)
    (e : Error_code) (st2 : BState) (h : build c msg st = .error (e, st2)) :
    ∃ s, st2.buffer = st.buffer ++ "INSERT INTO " ++ c.put_collection msg.collection ++ s := by
  have hg := grows_build c msg st
  rw [h] at hg
  obtain ⟨s, hs⟩ := hg
  exact ⟨s, by simpa [add_collection, put] using hs⟩

/-- C2 witness: the amended fact at the concrete failing request of the
counterexample. -/
theorem C2_witness :
    ∃ s, (BState.mk "INSERT INTO tbl" [] 0).buffer =
      st0.buffer ++ "INSERT INTO " ++ cx.put_collection "tbl" ++ s :=
  C2_failure_keeps_written_text cx msg_doc_proj st0 badProjectionError
    ⟨"INSERT INTO tbl", [], 0⟩ rfl

theorem add_projection_table (c : Generator) (projection : List Column) (st : BState) :
    add_projection c projection true st = .ok (put (proj_text c projection) st) := by
  rw [add_projection]
  by_cases h : projection.length = 0
  · simp [h, proj_text, put_empty]
  · rw [if_pos rfl, if_pos h,
      put_list_pure (fun col => c.put_identifier col.name) _ projection
        (fun x _ st2 => rfl), bindB_ok]
    simp [proj_text, h, put_put, String.append_assoc]

/-- C5: a document-model request with a non-empty projection always fails
with `BadProjection` (with the buffer still holding only the statement
prefix), and one with an empty projection always emits the literal text
`" (doc)"` as its column list, whatever happens afterwards. -/
theorem C5_document_projection (c : Generator) (msg : Insert) (st : BState)
    (hdm : msg.data_model = .DOCUMENT) :
    (msg.projection ≠ [] →
       build c msg st =
         .error (badProjectionError, add_collection c msg.collection (put "INSERT INTO " st))) ∧
    (msg.projection = [] →
       ∃ s, (res_state (build c msg st)).buffer =
         st.buffer ++ "INSERT INTO " ++ c.put_collection msg.collection ++ " (doc)" ++ s) := by
  have hrel : is_table_data_model msg = false := by
    rw [is_table_data_model, hdm]; rfl
  constructor
  · intro hp
    have hlen : msg.projection.length ≠ 0 := by simpa using hp
    rw [build_eq, hrel]
    rw [add_projection]
    rw [if_neg (by simp), if_pos hlen]
    rfl
  · intro hp
    rw [build_eq, hrel, hp]
    have hproj : add_projection c ([] : List Column) false
        (add_collection c msg.collection (put "INSERT INTO " st)) =
        .ok (put " (doc)" (add_collection c msg.collection (put "INSERT INTO " st))) := by
      rw [add_projection]; simp
    rw [hproj, bindB_ok]
    have hg : buffer_grows (put " (doc)" (add_collection c msg.collection (put "INSERT INTO " st)))
        (res_state (bindB (if false = true then
            add_values c msg.row ([] : List Column).length
              (put " (doc)" (add_collection c msg.collection (put "INSERT INTO " st)))
          else add_documents c msg.args msg.row
              (put " (doc)" (add_collection c msg.collection (put "INSERT INTO " st))))
          (fun st4 => if msg.upsert then add_upsert false st4 else .ok st4))) := by
      refine grows_res_bindB ?_ (fun st4 => ?_)
      · split
        · exact grows_add_values c msg.row _ _
        · exact grows_add_documents c msg.args msg.row _
      · split
        · exact grows_add_upsert false st4
        · exact buffer_grows_refl st4
    obtain ⟨s, hs⟩ := hg
    exact ⟨s, by simpa [add_collection, put, String.append_assoc] using hs⟩

/-- C5 witness: the two parts at concrete requests — the non-empty
projection failure and the `" (doc)"` emission. -/
theorem C5_witness :
    build cx msg_doc_proj st0 =
      .error (badProjectionError, add_collection cx msg_doc_proj.collection (put "INSERT INTO " st0)) ∧
    ∃ s, (res_state (build cx msg_other_row st0)).buffer =
      st0.buffer ++ "INSERT INTO " ++ cx.put_collection msg_other_row.collection ++ " (doc)" ++ s :=
  ⟨(C5_document_projection cx msg_doc_proj st0 rfl).1 (by decide),
   (C5_document_projection cx msg_other_row st0 rfl).2 rfl⟩

theorem build_upsert_decomposition (c : Generator) (msg : Insert) (st : BState)
    (hup : msg.upsert = true) :
    build c msg st =
      bindB (build c { msg with upsert := false } st)
        (add_upsert (is_table_data_model msg)) := by
  rw [build_eq, build_eq, hup]
  have h2 : is_table_data_model { msg with upsert := false } = is_table_data_model msg := rfl
  rw [h2]
  simp only [if_true, Bool.false_eq_true, if_false, bindB_pure, bindB_assoc]

/-- C6 (counterexample): a relational request with `upsert = true` but an
empty rows list fails with `MissingRows`, not `UpsertNotSupported` —
validation errors are raised in assembly order, and the upsert check comes
last. -/
theorem C6_counterexample :
    build cx msg_rel_upsert_norows st0 =
      .error (missingRowsError, ⟨"INSERT INTO tbl (I(a))", [], 0⟩) ∧
    missingRowsError ≠ upsertNotSupportedError :=
  ⟨rfl, by decide⟩

/-- C6 (amended): with `upsert = true`, a relational-model request never
succeeds, and when its earlier stages succeed (as witnessed by the same
request with `upsert = false` succeeding) it fails with exactly
`UpsertNotSupported`; a document-model request whose earlier stages succeed
appends the fixed clause `upsert_clause` verbatim, exactly once, after the
full values list (the clause is a constant, not parameterized by request
content). -/
theorem C6_upsert_policy (c : Generator) (msg : Insert) (st : BState)
    (hup : msg.upsert = true) :
    (msg.data_model = .TABLE →
       (∀ st2, build c msg st ≠ .ok st2) ∧
       (∀ st2, build c { msg with upsert := false } st = .ok st2 →
          build c msg st = .error (upsertNotSupportedError, st2))) ∧
    (msg.data_model = .DOCUMENT →
       ∀ st2, build c { msg with upsert := false } st = .ok st2 →
          build c msg st = .ok (put upsert_clause st2)) := by
  have hd := build_upsert_decomposition c msg st hup
  constructor
  · intro hdm
    have hrel : is_table_data_model msg = true := by
      rw [is_table_data_model, hdm]; rfl
    rw [hrel] at hd
    constructor
    · intro st2 hok
      rw [hd] at hok
      cases hb : build c { msg with upsert := false } st with
      | error e => rw [hb] at hok; exact Except.noConfusion hok
      | ok st4 =>
          rw [hb, bindB_ok, add_upsert, if_pos rfl] at hok
          exact Except.noConfusion hok
    · intro st2 hok
      rw [hd, hok, bindB_ok, add_upsert, if_pos rfl]
      rfl
  · intro hdm st2 hok
    have hrel : is_table_data_model msg = false := by
      rw [is_table_data_model, hdm]; rfl
    rw [hrel] at hd
    rw [hd, hok, bindB_ok, add_upsert]
    simp

/-- C6 witness: a concrete document upsert request appends the fixed clause
after the values list, and a concrete relational upsert request with valid
rows fails with `UpsertNotSupported`. -/
theorem C6_witness :
    build cx ⟨"tbl", .DOCUMENT, [], [⟨[.OBJECT [("_id", .OTHER)]]⟩], [], true⟩ st0 =
      .ok (put upsert_clause ⟨"INSERT INTO tbl (doc) VALUES (OEXPR)", [], 0⟩) ∧
    build cx msg_rel_upsert_match st0 =
      .error (upsertNotSupportedError, ⟨"INSERT INTO tbl (I(a)) VALUES (EXPR)", [], 0⟩) :=
  ⟨(C6_upsert_policy cx ⟨"tbl", .DOCUMENT, [], [⟨[.OBJECT [("_id", .OTHER)]]⟩], [], true⟩
      st0 rfl).2 rfl ⟨"INSERT INTO tbl (doc) VALUES (OEXPR)", [], 0⟩ rfl,
   ((C6_upsert_policy cx msg_rel_upsert_match st0 rfl).1 rfl).2
      ⟨"INSERT INTO tbl (I(a)) VALUES (EXPR)", [], 0⟩ rfl⟩

theorem put_list_rest_first_err (f : α → BState → BRes) (e : Error_code) (l : List α)
    (hall : ∀ x ∈ l, (∀ st, ∃ st2, f x st = .ok st2) ∨ (∀ st, f x st = .error (e, st)))
    (hbad : ∃ x ∈ l, ∀ st, f x st = .error (e, st)) (st : BState) :
    ∃ st2, put_list_rest f l st = .error (e, st2) := by
  induction l generalizing st with
  | nil =>
      obtain ⟨x, hx, _⟩ := hbad
      exact absurd hx (List.not_mem_nil x)
  | cons x xs ih =>
      rcases hall x (List.mem_cons_self x xs) with hgood | hbadx
      · obtain ⟨st2, hst2⟩ := hgood (put "," st)
        rw [put_list_rest, hst2, bindB_ok]
        apply ih (fun y hy => hall y (List.mem_cons_of_mem x hy))
        obtain ⟨y, hy, hyb⟩ := hbad
        rcases List.mem_cons.mp hy with rfl | hyxs
        · obtain ⟨st3, hst3⟩ := hgood st
          rw [hyb st] at hst3
          exact Except.noConfusion hst3
        · exact ⟨y, hyxs, hyb⟩
      · rw [put_list_rest, hbadx (put "," st), bindB_error]
        exact ⟨put "," st, rfl⟩

theorem put_list_first_err (f : α → BState → BRes) (e : Error_code) (l : List α)
    (hall : ∀ x ∈ l, (∀ st, ∃ st2, f x st = .ok st2) ∨ (∀ st, f x st = .error (e, st)))
    (hbad : ∃ x ∈ l, ∀ st, f x st = .error (e, st)) (st : BState) :
    ∃ st2, put_list f l st = .error (e, st2) := by
  cases l with
  | nil =>
      obtain ⟨x, hx, _⟩ := hbad
      exact absurd hx (List.not_mem_nil x)
  | cons x xs =>
      rcases hall x (List.mem_cons_self x xs) with hgood | hbadx
      · obtain ⟨st2, hst2⟩ := hgood st
        rw [put_list, hst2, bindB_ok]
        apply put_list_rest_first_err f e xs (fun y hy => hall y (List.mem_cons_of_mem x hy))
        obtain ⟨y, hy, hyb⟩ := hbad
        rcases List.mem_cons.mp hy with rfl | hyxs
        · obtain ⟨st3, hst3⟩ := hgood st
          rw [hyb st] at hst3
          exact Except.noConfusion hst3
        · exact ⟨y, hyxs, hyb⟩
      · rw [put_list, hbadx st, bindB_error]
        exact ⟨st, rfl⟩

theorem add_values_first_err (c : Generator) (values : List TypedRow) (psize : Nat)
    (st : BState) (hne : values.length ≠ 0)
    (hbad : ∃ r ∈ values, r.field.length = 0 ∨ (psize ≠ 0 ∧ r.field.length ≠ psize)) :
    ∃ st2, add_values c values psize st = .error (rowArityError, st2) := by
  rw [add_values, if_neg hne]
  apply put_list_first_err
  · intro r _
    by_cases hb : r.field.length = 0 ∨ (psize ≠ 0 ∧ r.field.length ≠ psize)
    · exact Or.inr (fun st2 => add_row_err c r.field psize st2 hb)
    · exact Or.inl (fun st2 => ⟨_, add_row_ok c r.field psize st2 hb⟩)
  · obtain ⟨r, hr, hb⟩ := hbad
    exact ⟨r, hr, fun st2 => add_row_err c r.field psize st2 hb⟩

theorem add_documents_first_err (c : Generator) (args : List Scalar)
    (values : List TypedRow) (st : BState) (hne : values.length ≠ 0)
    (hbad : ∃ r ∈ values, r.field.length ≠ 1) :
    ∃ st2, add_documents c args values st = .error (rowArityError, st2) := by
  rw [add_documents, if_neg hne]
  apply put_list_first_err
  · intro r _
    by_cases hb : r.field.length = 1
    · obtain ⟨doc, hdoc⟩ := List.length_eq_one.mp hb
      refine Or.inl (fun st2 => ?_)
      rw [hdoc]
      exact ⟨_, add_document_spec c args doc st2⟩
    · exact Or.inr (fun st2 => add_document_arity_err c args r.field st2 hb)
  · obtain ⟨r, hr, hb⟩ := hbad
    exact ⟨r, hr, fun st2 => add_document_arity_err c args r.field st2 hb⟩

/-- C7 (counterexample): a document-model request with an empty rows list
but a non-empty projection fails with `BadProjection`, not `MissingRows`:
the projection stage is validated before the rows. -/
theorem C7_counterexample :
    build cx msg_doc_proj_norows st0 =
      .error (badProjectionError, ⟨"INSERT INTO tbl", [], 0⟩) ∧
    badProjectionError ≠ missingRowsError :=
  ⟨rfl, by decide⟩

/-- C7 (amended): once the projection stage passes (relational model with
any projection, or document model with an empty projection), an empty rows
list fails with `MissingRows`; given non-empty rows, a relational row that
is empty or — a projection having been supplied — whose field count
differs from the projection length makes the build fail with
`RowArityMismatch`, and a document row whose field count is not exactly
one does the same. -/
theorem C7_missing_rows_and_arity (c : Generator) (msg : Insert) (st : BState) :
    (msg.data_model = .TABLE → msg.row = [] →
       ∃ st2, build c msg st = .error (missingRowsError, st2)) ∧
    (msg.data_model = .DOCUMENT → msg.projection = [] → msg.row = [] →
       ∃ st2, build c msg st = .error (missingRowsError, st2)) ∧
    (msg.data_model = .TABLE → msg.row ≠ [] →
       (∃ r ∈ msg.row, r.field = [] ∨
          (msg.projection ≠ [] ∧ r.field.length ≠ msg.projection.length)) →
       ∃ st2, build c msg st = .error (rowArityError, st2)) ∧
    (msg.data_model = .DOCUMENT → msg.projection = [] → msg.row ≠ [] →
       (∃ r ∈ msg.row, r.field.length ≠ 1) →
       ∃ st2, build c msg st = .error (rowArityError, st2)) := by
  refine ⟨?_, ?_, ?_, ?_⟩
  · intro hdm hrow
    have hrel : is_table_data_model msg = true := by
      rw [is_table_data_model, hdm]; rfl
    rw [build_eq, hrel]
    simp only [if_true]
    rw [add_projection_table, bindB_ok, hrow, add_values]
    simp only [List.length_nil, if_pos rfl]
    exact ⟨_, rfl⟩
  · intro hdm hproj hrow
    have hrel : is_table_data_model msg = false := by
      rw [is_table_data_model, hdm]; rfl
    rw [build_eq, hrel, hproj]
    have hap : add_projection c ([] : List Column) false
        (add_collection c msg.collection (put "INSERT INTO " st)) =
        .ok (put " (doc)" (add_collection c msg.collection (put "INSERT INTO " st))) := by
      rw [add_projection]; simp
    rw [hap, bindB_ok]
    simp only [Bool.false_eq_true, if_false]
    rw [hrow, add_documents]
    simp only [List.length_nil, if_pos rfl]
    exact ⟨_, rfl⟩
  · intro hdm hrow hbad
    have hrel : is_table_data_model msg = true := by
      rw [is_table_data_model, hdm]; rfl
    rw [build_eq, hrel]
    simp only [if_true]
    rw [add_projection_table, bindB_ok]
    obtain ⟨st2, hst2⟩ := add_values_first_err c msg.row msg.projection.length
      (put (proj_text c msg.projection) (add_collection c msg.collection (put "INSERT INTO " st)))
      (by simpa using hrow)
      (by
        obtain ⟨r, hr, hb⟩ := hbad
        refine ⟨r, hr, ?_⟩
        rcases hb with hb | ⟨hp, hl⟩
        · exact Or.inl (by simpa using hb)
        · exact Or.inr ⟨by simpa using hp, hl⟩)
    rw [hst2, bindB_error]
    exact ⟨st2, rfl⟩
  · intro hdm hproj hrow hbad
    have hrel : is_table_data_model msg = false := by
      rw [is_table_data_model, hdm]; rfl
    rw [build_eq, hrel, hproj]
    have hap : add_projection c ([] : List Column) false
        (add_collection c msg.collection (put "INSERT INTO " st)) =
        .ok (put " (doc)" (add_collection c msg.collection (put "INSERT INTO " st))) := by
      rw [add_projection]; simp
    rw [hap, bindB_ok]
    simp only [Bool.false_eq_true, if_false]
    obtain ⟨st2, hst2⟩ := add_documents_first_err c msg.args msg.row
      (put " (doc)" (add_collection c msg.collection (put "INSERT INTO " st)))
      (by simpa using hrow) hbad
    rw [hst2, bindB_error]
    exact ⟨st2, rfl⟩

/-- C7 witness: the four amended facts at concrete requests. -/
theorem C7_witness :
    (∃ st2, build cx msg_rel_upsert_norows st0 = .error (missingRowsError, st2)) ∧
    (∃ st2, build cx ⟨"tbl", .DOCUMENT, [], [], [], false⟩ st0 =
       .error (missingRowsError, st2)) ∧
    (∃ st2, build cx ⟨"tbl", .TABLE, [⟨"a"⟩, ⟨"b"⟩], [⟨[.OTHER]⟩], [], false⟩ st0 =
       .error (rowArityError, st2)) ∧
    (∃ st2, build cx ⟨"tbl", .DOCUMENT, [], [⟨[.OTHER, .OTHER]⟩], [], false⟩ st0 =
       .error (rowArityError, st2)) :=
  ⟨(C7_missing_rows_and_arity cx msg_rel_upsert_norows st0).1 rfl rfl,
   (C7_missing_rows_and_arity cx ⟨"tbl", .DOCUMENT, [], [], [], false⟩ st0).2.1 rfl rfl rfl,
   (C7_missing_rows_and_arity cx ⟨"tbl", .TABLE, [⟨"a"⟩, ⟨"b"⟩], [⟨[.OTHER]⟩], [], false⟩
      st0).2.2.1 rfl (List.cons_ne_nil _ _)
      ⟨⟨[.OTHER]⟩, List.mem_cons_self _ _, Or.inr ⟨by decide, by decide⟩⟩,
   (C7_missing_rows_and_arity cx ⟨"tbl", .DOCUMENT, [], [⟨[.OTHER, .OTHER]⟩], [], false⟩
      st0).2.2.2 rfl rfl (List.cons_ne_nil _ _)
      ⟨⟨[.OTHER, .OTHER]⟩, List.mem_cons_self _ _, by decide⟩⟩

theorem add_values_ok (c : Generator) (values : List TypedRow) (psize : Nat)
    (st : BState) (hne : values.length ≠ 0)
    (hrows : ∀ r ∈ values, ¬(r.field.length = 0 ∨ (psize ≠ 0 ∧ r.field.length ≠ psize))) :
    add_values c values psize st = .ok (put (values_text c values) st) := by
  rw [add_values, if_neg hne,
    put_list_pure (fun r => row_text c r.field) _ values
      (fun r hr st2 => add_row_ok c r.field psize st2 (hrows r hr))]
  simp [values_text, put_put]

/-- C8 (counterexample): a relational request satisfying the claim's
hypotheses (non-empty projection, non-empty rows, all field counts equal to
the projection length) but carrying `upsert = true` does not succeed: it
fails with `UpsertNotSupported`. -/
theorem C8_counterexample :
    build cx msg_rel_upsert_match st0 =
      .error (upsertNotSupportedError, ⟨"INSERT INTO tbl (I(a)) VALUES (EXPR)", [], 0⟩) :=
  rfl

/-- C8 (amended): a relational request with `upsert = false`, a non-empty
projection and non-empty rows whose field counts all equal the projection
length builds successfully into exactly
`INSERT INTO <collection> (<comma-joined quoted identifiers>) VALUES
(<row fields>),...` with each row parenthesized, touching neither
`document_ids` nor the id generator. -/
theorem C8_relational_exact_output (c : Generator) (msg : Insert) (st : BState)
    (hdm : msg.data_model = .TABLE) (hup : msg.upsert = false)
    (hproj : msg.projection ≠ []) (hrows : msg.row ≠ [])
    (harity : ∀ r ∈ msg.row, r.field.length = msg.projection.length) :
    build c msg st =
      .ok { buffer := st.buffer ++ "INSERT INTO " ++ c.put_collection msg.collection ++
              " (" ++ joinComma (msg.projection.map fun col => c.put_identifier col.name) ++
              ")" ++ " VALUES " ++ joinComma (msg.row.map fun r => row_text c r.field),
            document_ids := st.document_ids,
            gen_calls := st.gen_calls } := by
  have hrel : is_table_data_model msg = true := by
    rw [is_table_data_model, hdm]; rfl
  have hplen : msg.projection.length ≠ 0 := by simpa using hproj
  rw [build_eq, hrel]
  simp only [if_true]
  rw [add_projection_table, bindB_ok,
    add_values_ok c msg.row msg.projection.length _ (by simpa using hrows)
      (fun r hr => by
        rw [harity r hr]
        push_neg
        exact ⟨hplen, fun _ => rfl⟩),
    bindB_ok, hup]
  simp only [Bool.false_eq_true, if_false]
  simp only [put, add_collection, proj_text, values_text, if_neg hplen,
    String.append_assoc]

/-- C8 witness: the amended exact-output fact at a concrete relational
request with two projected columns and one matching row. -/
theorem C8_witness :
    build cx msg_rel_match st0 =
      .ok { buffer := st0.buffer ++ "INSERT INTO " ++ cx.put_collection msg_rel_match.collection ++
              " (" ++ joinComma (msg_rel_match.projection.map fun col => cx.put_identifier col.name) ++
              ")" ++ " VALUES " ++ joinComma (msg_rel_match.row.map fun r => row_text cx r.field),
            document_ids := st0.document_ids,
            gen_calls := st0.gen_calls } :=
  C8_relational_exact_output cx msg_rel_match st0 rfl rfl (by decide)
    (List.cons_ne_nil _ _) (fun r hr => by
      rcases List.mem_singleton.mp hr with rfl
      rfl)

/-- C10 (counterexample): a relational request with empty projection,
non-empty rows all non-empty (of differing field counts) but
`upsert = true` does not succeed: it fails with `UpsertNotSupported`. -/
theorem C10_counterexample :
    build cx msg_rel_upsert_ragged st0 =
      .error (upsertNotSupportedError,
        ⟨"INSERT INTO tbl VALUES (EXPR),(EXPR,EXPR)", [], 0⟩) :=
  rfl

/-- C10 (amended): a relational request with `upsert = false`, an empty
projection and non-empty rows in which every row is non-empty builds
successfully — no `RowArityMismatch` is raised even when rows of the same
request have different field counts, because without a projection only
row non-emptiness is checked. -/
theorem C10_no_cross_row_arity_check (c : Generator) (msg : Insert) (st : BState)
    (hdm : msg.data_model = .TABLE) (hup : msg.upsert = false)
    (hproj : msg.projection = []) (hrows : msg.row ≠ [])
    (hnonempty : ∀ r ∈ msg.row, r.field ≠ []) :
    build c msg st =
      .ok { buffer := st.buffer ++ "INSERT INTO " ++ c.put_collection msg.collection ++
              " VALUES " ++ joinComma (msg.row.map fun r => row_text c r.field),
            document_ids := st.document_ids,
            gen_calls := st.gen_calls } := by
  have hrel : is_table_data_model msg = true := by
    rw [is_table_data_model, hdm]; rfl
  rw [build_eq, hrel]
  simp only [if_true]
  rw [add_projection_table, bindB_ok, hproj]
  rw [add_values_ok c msg.row ([] : List Column).length _ (by simpa using hrows)
      (fun r hr => by
        push_neg
        refine ⟨by simpa using hnonempty r hr, fun hz => absurd rfl hz⟩),
    bindB_ok, hup]
  simp only [Bool.false_eq_true, if_false]
  rw [show proj_text c ([] : List Column) = "" from rfl, put_empty]
  simp only [put, add_collection, values_text, String.append_assoc]

/-- C10 witness: the amended fact at a concrete request whose two rows have
one and two fields respectively. -/
theorem C10_witness :
    build cx msg_rel_ragged st0 =
      .ok { buffer := st0.buffer ++ "INSERT INTO " ++ cx.put_collection msg_rel_ragged.collection ++
              " VALUES " ++ joinComma (msg_rel_ragged.row.map fun r => row_text cx r.field),
            document_ids := st0.document_ids,
            gen_calls := st0.gen_calls } :=
  C10_no_cross_row_arity_check cx msg_rel_ragged st0 rfl rfl rfl
    (List.cons_ne_nil _ _) (fun r hr => by
      rcases List.mem_cons.mp hr with rfl | hr2
      · exact List.cons_ne_nil _ _
      · rcases List.mem_singleton.mp hr2 with rfl
        exact List.cons_ne_nil _ _)

/-- C9: `configue` issues the single `config_query` reading the three
session variables; when its result set does not have exactly one row it
returns the internal `ConfigFetchFailed` error, the build aborts with that
error, and no id is generated (the state, `document_ids` included, is the
untouched entry state).  The at-most-once lazy configuration of the
aggregator instance lives in callers outside this translation unit and is
modelled from the spec by `build_with_configuration`. -/
theorem C9_config_fetch_failure (c : Generator) (gen : Variables → Nat → String)
    (query_result : List (Nat × Nat × Nat)) (msg : Insert) (st : BState)
    (h : query_result.length ≠ 1) :
    configue query_result = .error configFetchError ∧
    build_with_configuration c gen query_result msg st = .error (configFetchError, st) ∧
    (res_state (build_with_configuration c gen query_result msg st)).document_ids =
      st.document_ids := by
  have hc : configue query_result = .error configFetchError := by
    simp [configue, h]
  have hb : build_with_configuration c gen query_result msg st =
      .error (configFetchError, st) := by
    rw [build_with_configuration, hc]
  refine ⟨hc, hb, ?_⟩
  rw [hb]
  rfl


/-- C9 witness: a zero-row configuration result fails the build with the
internal error and generates no id. -/
theorem C9_witness :
    configue [] = .error configFetchError ∧
    build_with_configuration cx (fun _ n => Nat.repr n) [] msg_doc_string st0 =
      .error (configFetchError, st0) ∧
    (res_state (build_with_configuration cx (fun _ n => Nat.repr n) [] msg_doc_string st0)).document_ids =
      st0.document_ids :=
  C9_config_fetch_failure cx (fun _ n => Nat.repr n) [] msg_doc_string st0 (by decide)

end InsertBuilder
